import Mathlib

/-!
Shallow embedding of the shuttle gateway crate root (src/gateway/src/lib.rs):
the error type and its constructors, the identity newtypes ProjectName and
AccountName with their parsing and (de)serialisation, and the generic state
machinery (State / EndState / TryState / IntoTryState and the stream of
successive states built by EndStateExt::into_stream).

Rust strings are modelled as Lean strings; byte-level operations act on the
code points via Char.toNat.  Every byte outside ASCII fails the project-name
character test (which only admits bytes 0x30-0x39, 0x61-0x7a and 0x2d), and a
string all of whose characters pass it is pure ASCII, so its UTF-8 byte
length coincides with its character count; hence the character-level model of
ProjectName::is_valid agrees with the byte-level Rust original on every
string.  Result is modelled by Except, Infallible by Empty, Option by Option.
-/

namespace Gateway

/-- Modelled from the spec: the error taxonomy at the core boundary, section 7
of the specification.  The Rust type is shuttle_common::models::error::ErrorKind,
which lives outside this crate (only used from it); the spec enumerates the
kinds InvalidProjectName, ProjectNotFound, ProjectAlreadyExists,
ProjectUnavailable, ServiceUnavailable and Internal. -/
inductive ErrorKind where
  | InvalidProjectName
  | ProjectNotFound
  | ProjectAlreadyExists
  | ProjectUnavailable
  | ServiceUnavailable
  | Internal
deriving DecidableEq, Repr

/-- A boxed dynamic source error (Box of dyn StdError in the Rust code); only
its display message is observable, so it is modelled as that message. -/
structure BoxedError where
  msg : String
deriving DecidableEq, Repr

/-- The gateway Error type: an ErrorKind together with an optional boxed
source error (struct Error in lib.rs). -/
structure Error where
  kind : ErrorKind
  source : Option BoxedError
deriving DecidableEq, Repr

/-- Error::from_kind -/
def Error.from_kind (kind : ErrorKind) : Error :=
  { kind := kind, source := none }

/-- Error::custom: wraps the message in an io::Error used as the source. -/
def Error.custom (kind : ErrorKind) (message : String) : Error :=
  { kind := kind, source := some { msg := message } }

/-- Error::source (the constructor, renamed because the field is also called
source): attaches the given error as the source. -/
def Error.sourceErr (kind : ErrorKind) (err : BoxedError) : Error :=
  { kind := kind, source := some err }

/-- impl From of ErrorKind for Error -/
def errorFromErrorKind (kind : ErrorKind) : Error :=
  Error.from_kind kind

/-- tokio's SendError, carrying back the value that could not be sent. -/
structure SendError (T : Type) where
  val : T

/-- impl From of SendError for Error: always ServiceUnavailable, no source. -/
def errorFromSendError {T : Type} (_ : SendError T) : Error :=
  errorFromErrorKind ErrorKind.ServiceUnavailable

/-- Modelled from the spec: shuttle_common::models::error::ApiError, the JSON
body sent to the client, is outside this crate.  Section 7: the admin surface
maps error kinds to status codes without leaking the internal message. -/
structure ApiError where
  message : String
  status_code : Nat
deriving DecidableEq, Repr

/-- Modelled from the spec: the From conversion of an ErrorKind into an
ApiError (a pure function of the kind alone), with the status classes of
section 7: InvalidProjectName is 400-class, ProjectNotFound 404,
ProjectAlreadyExists 409, ProjectUnavailable and ServiceUnavailable 503,
Internal 500. -/
def apiErrorFromKind : ErrorKind → ApiError
  | ErrorKind.InvalidProjectName => { message := "invalid project name", status_code := 400 }
  | ErrorKind.ProjectNotFound => { message := "project not found", status_code := 404 }
  | ErrorKind.ProjectAlreadyExists => { message := "project already exists", status_code := 409 }
  | ErrorKind.ProjectUnavailable => { message := "project unavailable", status_code := 503 }
  | ErrorKind.ServiceUnavailable => { message := "service unavailable", status_code := 503 }
  | ErrorKind.Internal => { message := "internal server error", status_code := 500 }

/-- Error::into_response: converts self.kind into an ApiError and responds
with that ApiError's status and the ApiError as JSON body.  The source field
is only written to the tracing log, never to the response. -/
def Error.into_response (e : Error) : Nat × ApiError :=
  let error := apiErrorFromKind e.kind
  (error.status_code, error)

/-- ProjectName newtype over its string. -/
structure ProjectName where
  str : String
deriving DecidableEq, Repr

/-- is_valid_char from ProjectName::is_valid: a byte is valid when it is a
lowercase ASCII letter (0x61-0x7a), an ASCII digit (0x30-0x39) or a
hyphen (0x2d). -/
def is_valid_char (byte : Nat) : Bool :=
  (97 ≤ byte && byte ≤ 122) || (48 ≤ byte && byte ≤ 57) || byte == 45

/-- ProjectName::is_valid, clause for clause: not (some byte is invalid, or
the name ends with a hyphen, or starts with a hyphen, or is empty, or its
length exceeds 63). -/
def ProjectName.is_valid (p : ProjectName) : Bool :=
  let name := p.str
  !(name.data.any (fun c => !is_valid_char c.toNat)
    || (name.data.getLast? == some '-')
    || (name.data.head? == some '-')
    || name.data.isEmpty
    || decide (name.data.length > 63))

/-- Modelled from the spec: the validation done by
shuttle_common::project::ProjectName (outside this crate), which
ProjectName::from_str delegates to.  Section 3: a DNS-label-compatible
string of lowercase ASCII letters, digits and hyphens, of length 1..63,
which must not start or end with a hyphen. -/
def shuttleCommonProjectNameValid (s : String) : Bool :=
  decide (1 ≤ s.data.length) && decide (s.data.length ≤ 63)
    && s.data.all (fun c => (97 ≤ c.toNat && c.toNat ≤ 122)
        || (48 ≤ c.toNat && c.toNat ≤ 57) || c.toNat == 45)
    && !(s.data.head? == some '-')
    && !(s.data.getLast? == some '-')

/-- FromStr for ProjectName: parse through shuttle_common's validation,
mapping a parse failure to an InvalidProjectName error and a success to the
newtype over the parsed string. -/
def ProjectName.from_str (s : String) : Except Error ProjectName :=
  if shuttleCommonProjectNameValid s then
    Except.ok { str := s }
  else
    Except.error (Error.from_kind ErrorKind.InvalidProjectName)

/-- Serialize for ProjectName (derived, transparent newtype): the payload is
the inner string. -/
def projectNameSerialize (p : ProjectName) : String :=
  p.str

/-- Deserialize for ProjectName: deserialise a string and parse it, mapping
the parse failure to a deserialisation error (modelled as none). -/
def projectNameDeserialize (s : String) : Option ProjectName :=
  match ProjectName.from_str s with
  | Except.ok p => some p
  | Except.error _ => none

/-- AccountName newtype over its string. -/
structure AccountName where
  str : String
deriving DecidableEq, Repr

/-- FromStr for AccountName: unconditionally Ok of the newtype over the
input. -/
def AccountName.from_str (s : String) : Except Error AccountName :=
  Except.ok { str := s }

/-- Serialize for AccountName (derived, transparent newtype): the payload is
the inner string. -/
def accountNameSerialize (a : AccountName) : String :=
  a.str

/-- Deserialize for AccountName: deserialise a string and parse it; the
error branch of the Rust code is a todo macro that would panic, modelled
here as none. -/
def accountNameDeserialize (s : String) : Option AccountName :=
  match AccountName.from_str s with
  | Except.ok a => some a
  | Except.error _ => none

/-- IntoTryState::into_try_state for Result: map the success through From,
and fold the error through From wrapped back in Ok, so the outer Result is
infallible (error type Infallible, modelled as Empty). -/
def intoTryState {F Err S : Type} (fromF : F → S) (fromErr : Err → S)
    (r : Except Err F) : Except Empty S :=
  match r.map fromF with
  | Except.ok s => Except.ok s
  | Except.error err => Except.ok (fromErr err)

/-- A system satisfying EndState and TryState: the trait bound
State with Error = Infallible and Next = Self makes next a total function
from a state and a context to a state; TryState::into_result exposes the
error variants; EndState::is_done flags terminal states. -/
structure EndStateSys (S Ctx E : Type) where
  next : S → Ctx → S
  into_result : S → Except E S
  is_done : S → Bool

/-- Iterated application of next from a starting state. -/
def EndStateSys.iterNext {S Ctx E : Type} (sys : EndStateSys S Ctx E) (ctx : Ctx) :
    Nat → S → S
  | 0, s => s
  | n + 1, s => sys.iterNext ctx n (sys.next s ctx)

/-- The n-th item of the stream built by EndStateExt::into_stream via
try_unfold: at each step advance the state with next (infallible, hence the
unwrap in the Rust code), split it with into_result, yield an Ok item and
continue on the ok state, or yield the error variant as a final Err item
(modelled by the 0 case; a position past a yielded error is none). -/
def EndStateSys.streamNth {S Ctx E : Type} (sys : EndStateSys S Ctx E) (ctx : Ctx) :
    Nat → S → Option (Except E S)
  | 0, s => some (sys.into_result (sys.next s ctx))
  | n + 1, s =>
    match sys.into_result (sys.next s ctx) with
    | Except.error _ => none
    | Except.ok s1 => sys.streamNth ctx n s1

/-- A concrete EndStateSys used to instantiate the stream refinement at a
computable point: states are naturals, next increments, no error variants. -/
def natCounterSys : EndStateSys Nat Unit Unit :=
  { next := fun s _ => s + 1
    into_result := fun s => Except.ok s
    is_done := fun _ => false }

end Gateway

namespace Gateway

/-- Characterisation of ProjectName.is_valid as the conjunction of the five
validity conditions, proved directly from the code-level definition. -/
theorem isValid_characterisation (s : String) :
    (ProjectName.mk s).is_valid = true ↔
      (s ≠ "" ∧ s.data.length ≤ 63
        ∧ (∀ c ∈ s.data, is_valid_char c.toNat = true)
        ∧ s.data.head? ≠ some '-' ∧ s.data.getLast? ≠ some '-') := by
  unfold ProjectName.is_valid
  simp only [Bool.not_eq_true', Bool.or_eq_false_iff, List.any_eq_false, Bool.not_eq_false,
    beq_eq_false_iff_ne, ne_eq, List.isEmpty_eq_false, decide_eq_false_iff_not, not_lt]
  have hempty : (s = "") ↔ s.data = [] := by
    constructor
    · intro h; rw [h]
    · intro h; cases s; simp_all
  tauto

/-- Characterisation of the spec-modelled shuttle_common validation as the
same five conditions. -/
theorem specValid_characterisation (s : String) :
    shuttleCommonProjectNameValid s = true ↔
      (s ≠ "" ∧ s.data.length ≤ 63
        ∧ (∀ c ∈ s.data, is_valid_char c.toNat = true)
        ∧ s.data.head? ≠ some '-' ∧ s.data.getLast? ≠ some '-') := by
  unfold shuttleCommonProjectNameValid is_valid_char
  simp only [Bool.and_eq_true, decide_eq_true_eq, List.all_eq_true, Bool.not_eq_true',
    beq_eq_false_iff_ne, ne_eq]
  have hempty : (s = "") ↔ s.data = [] := by
    constructor
    · intro h; rw [h]
    · intro h; cases s; simp_all
  have hlen : 1 ≤ s.data.length ↔ s.data ≠ [] := by
    cases s.data <;> simp
  tauto

/-- The validation shuttle_common applies (modelled from section 3 of the
spec) agrees with the crate-local ProjectName.is_valid on every string. -/
theorem specValid_eq_isValid (s : String) :
    shuttleCommonProjectNameValid s = (ProjectName.mk s).is_valid := by
  rw [Bool.eq_iff_iff, specValid_characterisation, isValid_characterisation]

/-- C1: ProjectName::is_valid returns true iff the string is non-empty, has
length at most 63, every character is a lowercase ASCII letter, an ASCII
digit or a hyphen, and it neither starts nor ends with a hyphen.  Characters
and bytes coincide here because any non-ASCII byte fails is_valid_char. -/
theorem projectName_is_valid_iff (s : String) :
    (ProjectName.mk s).is_valid = true ↔
      (s ≠ "" ∧ s.length ≤ 63
        ∧ (∀ c ∈ s.data, is_valid_char c.toNat = true)
        ∧ s.data.head? ≠ some '-' ∧ s.data.getLast? ≠ some '-') :=
  isValid_characterisation s

/-- C2: folding a transition Result into the state sum type never surfaces an
error: into_try_state maps Ok f to From f, maps Err e to From e, and its
outcome is Ok on every input, so the outer signature (whose error type is
Infallible, modelled as Empty, exactly as the EndState trait bound demands)
cannot fail. -/
theorem intoTryState_infallible {F Err S : Type} (fromF : F → S) (fromErr : Err → S) :
    (∀ f, intoTryState fromF fromErr (Except.ok f) = Except.ok (fromF f))
      ∧ (∀ e, intoTryState fromF fromErr (Except.error e) = Except.ok (fromErr e))
      ∧ (∀ r, ∃ s, intoTryState fromF fromErr r = Except.ok s) := by
  refine ⟨fun f => rfl, fun e => rfl, fun r => ?_⟩
  cases r with
  | ok f => exact ⟨fromF f, rfl⟩
  | error e => exact ⟨fromErr e, rfl⟩

/-- C3: evaluation of the code at the failing input.  Contrary to the claim
(the spec requires rejecting the empty account name), AccountName::from_str
applied to the empty string succeeds with an empty AccountName, and
deserialisation consequently succeeds as well instead of erroring. -/
theorem accountName_accepts_empty :
    AccountName.from_str "" = Except.ok { str := "" }
      ∧ accountNameDeserialize "" = some { str := "" } :=
  ⟨rfl, rfl⟩

/-- C4: the HTTP response produced from an Error depends only on its kind
field: two errors with equal kinds produce identical status codes and bodies,
whatever their source fields hold. -/
theorem error_into_response_kind_only (e1 e2 : Error) (h : e1.kind = e2.kind) :
    e1.into_response = e2.into_response := by
  unfold Error.into_response
  rw [h]

/-- Witness for C4: an Internal error with no source and an Internal error
carrying a secret source message get the same response. -/
theorem error_into_response_kind_only_witness :
    ({ kind := ErrorKind.Internal, source := none } : Error).kind
        = ({ kind := ErrorKind.Internal, source := some { msg := "secret detail" } } : Error).kind
      ∧ ({ kind := ErrorKind.Internal, source := none } : Error).into_response
        = ({ kind := ErrorKind.Internal, source := some { msg := "secret detail" } } : Error).into_response :=
  ⟨rfl, error_into_response_kind_only _ _ rfl⟩

/-- C5: ProjectName::from_str returns an error of kind InvalidProjectName on
every string failing validation, and Ok of the ProjectName wrapping exactly
the input string on every string passing validation. -/
theorem projectName_from_str_validates (s : String) :
    ((ProjectName.mk s).is_valid = false →
        ∃ e, ProjectName.from_str s = Except.error e ∧ e.kind = ErrorKind.InvalidProjectName)
      ∧ ((ProjectName.mk s).is_valid = true →
        ProjectName.from_str s = Except.ok { str := s }) := by
  constructor
  · intro h
    refine ⟨Error.from_kind ErrorKind.InvalidProjectName, ?_, rfl⟩
    unfold ProjectName.from_str
    rw [specValid_eq_isValid, h]
    simp
  · intro h
    unfold ProjectName.from_str
    rw [specValid_eq_isValid, h]
    simp

/-- Witness for C5 at the spec scenario S2 input MATRIX-- (invalid) and at
matrix (valid). -/
theorem projectName_from_str_validates_witness :
    (∃ e, ProjectName.from_str "MATRIX--" = Except.error e
        ∧ e.kind = ErrorKind.InvalidProjectName)
      ∧ ProjectName.from_str "matrix" = Except.ok { str := "matrix" } :=
  ⟨(projectName_from_str_validates "MATRIX--").1 (by decide),
   (projectName_from_str_validates "matrix").2 (by decide)⟩

/-- C6: round-trip of the serialisable identity types: serialising a valid
ProjectName and deserialising yields the same ProjectName, and likewise for
every AccountName. -/
theorem identity_roundtrip (p : ProjectName) (a : AccountName) (h : p.is_valid = true) :
    projectNameDeserialize (projectNameSerialize p) = some p
      ∧ accountNameDeserialize (accountNameSerialize a) = some a := by
  constructor
  · unfold projectNameDeserialize projectNameSerialize ProjectName.from_str
    have hv : shuttleCommonProjectNameValid p.str = true := by
      rw [specValid_eq_isValid]
      exact h
    rw [hv]
    rfl
  · rfl

/-- Witness for C6 at the project name matrix and the account name trinity. -/
theorem identity_roundtrip_witness :
    projectNameDeserialize (projectNameSerialize { str := "matrix" }) = some { str := "matrix" }
      ∧ accountNameDeserialize (accountNameSerialize { str := "trinity" }) = some { str := "trinity" } :=
  identity_roundtrip { str := "matrix" } { str := "trinity" } (by decide)

/-- C7: the lazy stream of states refines iterated advancement: as long as
every reached state is a non-error variant (its into_result is Ok of the
state itself), the n-th item yielded by into_stream from state s equals next
applied to s exactly n+1 times. -/
theorem into_stream_refines_iterates {S Ctx E : Type} (sys : EndStateSys S Ctx E)
    (ctx : Ctx) (s : S) (n : Nat)
    (h : ∀ k, k < n + 1 →
      sys.into_result (sys.iterNext ctx (k + 1) s) = Except.ok (sys.iterNext ctx (k + 1) s)) :
    sys.streamNth ctx n s = some (Except.ok (sys.iterNext ctx (n + 1) s)) := by
  induction n generalizing s with
  | zero =>
    have h0 := h 0 (by omega)
    simp only [EndStateSys.iterNext] at h0 ⊢
    simp [EndStateSys.streamNth, h0]
  | succ n ih =>
    have h0 := h 0 (by omega)
    simp only [EndStateSys.iterNext] at h0
    simp only [EndStateSys.streamNth, h0]
    have hrec := ih (sys.next s ctx) (fun k hk => by
      have hk1 := h (k + 1) (by omega)
      simpa [EndStateSys.iterNext] using hk1)
    simpa [EndStateSys.iterNext] using hrec

/-- Witness for C7 on the concrete counter system: the third stream item
from state 0 is 3. -/
theorem into_stream_refines_iterates_witness :
    natCounterSys.streamNth () 2 0 = some (Except.ok 3) := by
  have h := into_stream_refines_iterates natCounterSys () 0 2 (fun k hk => rfl)
  exact h.trans (by rfl)

/-- C8: converting any failed send on the task queue into an Error yields
kind ServiceUnavailable and no source, for every payload type. -/
theorem sendError_gives_service_unavailable (T : Type) (e : SendError T) :
    (errorFromSendError e).kind = ErrorKind.ServiceUnavailable
      ∧ (errorFromSendError e).source = none :=
  ⟨rfl, rfl⟩

/-- C9: AccountName::from_str is total, returning Ok of the newtype over the
input for every string, so deserialisation always succeeds and the todo
branch of the Deserialize implementation is unreachable. -/
theorem accountName_from_str_total (s : String) :
    AccountName.from_str s = Except.ok { str := s }
      ∧ accountNameDeserialize s = some { str := s } :=
  ⟨rfl, rfl⟩

/-- C10: every constructor of Error preserves the given kind: from_kind,
custom, source and the From conversion from an ErrorKind all produce an Error
whose kind method returns the kind they were given. -/
theorem error_constructors_preserve_kind (k : ErrorKind) (m : String) (e : BoxedError) :
    (Error.from_kind k).kind = k ∧ (Error.custom k m).kind = k
      ∧ (Error.sourceErr k e).kind = k ∧ (errorFromErrorKind k).kind = k :=
  ⟨rfl, rfl, rfl, rfl⟩

end Gateway
